import Mathlib

/-!
Shallow embedding of `NetworkInterfaceMonitor` (windows-network-interface-monitor).

The JavaScript class owns: `monitorData` (interface name, address family, native
subscription handle), `currentAddress`, a retry timer (`checkTimer`,
`checkTimerCounter`, `checkTimerInterval`, `checkTimerMaxTries`) and the client
callback.  The native layer (`NotifyIpInterfaceChange` / `CancelMibChangeNotify2`)
and `os.networkInterfaces()` are modelled as explicit parameters: a `NativeEnv`
giving the success/failure of the two native calls, and a `Snapshot` giving the
address enumeration.  Callback invocations are collected in an output list.
-/

namespace NIM

/-- Address family of one enumerated address (`ip.family` in `os.networkInterfaces()`). -/
inductive AddressFamily
  | IPv4
  | IPv6
deriving DecidableEq, Repr

/-- The monitored family passed to the constructor: the strings used by the class. -/
inductive MonitoredFamily
  | IPv4
  | IPv6
  | Any
deriving DecidableEq, Repr

/-- One entry of `os.networkInterfaces()[name]`: an address string and its family. -/
structure IfEntry where
  address : String
  family : AddressFamily
deriving DecidableEq, Repr

/-- The `os.networkInterfaces()` result: interface name to list of entries.
`none` lookup models an absent key (unknown interface name). -/
abbrev Snapshot := List (String × List IfEntry)

/-- JS object lookup `networkInterfaces[name]`. -/
def lookupIface (snapshot : Snapshot) (name : String) : Option (List IfEntry) :=
  (snapshot.find? (fun p => p.1 == name)).map (fun p => p.2)

-- The `EventType` constants from the source.
namespace EventType

def Initial : Nat := 0

def IPChanged : Nat := 1

def IPAssigned : Nat := 2

def IPRemoved : Nat := 3

end EventType

/-- The `hasLinkLocalAddress` object built by `getIP`: one boolean per family. -/
structure LinkLocalFlags where
  IPv4 : Bool
  IPv6 : Bool
deriving DecidableEq, Repr

/-- The `result` object built by `getIP`: at most one address string per family
(a key is absent iff the field is `none`). -/
structure AddressSet where
  IPv4 : Option String
  IPv6 : Option String
deriving DecidableEq, Repr

/-- Field access `result[family]`. -/
def AddressSet.get (s : AddressSet) : AddressFamily → Option String
  | .IPv4 => s.IPv4
  | .IPv6 => s.IPv6

/-- Field assignment `result[family] = address` (overwrites any earlier value). -/
def AddressSet.setFam (s : AddressSet) : AddressFamily → String → AddressSet
  | .IPv4, a => { s with IPv4 := some a }
  | .IPv6, a => { s with IPv6 := some a }

/-- Flag access `hasLinkLocalAddress[family]` for an entry family. -/
def LinkLocalFlags.get (f : LinkLocalFlags) : AddressFamily → Bool
  | .IPv4 => f.IPv4
  | .IPv6 => f.IPv6

/-- Flag assignment `hasLinkLocalAddress[family] = true`. -/
def LinkLocalFlags.setFam (f : LinkLocalFlags) : AddressFamily → LinkLocalFlags
  | .IPv4 => { f with IPv4 := true }
  | .IPv6 => { f with IPv6 := true }

/-- Lookup `hasLinkLocalAddress[this.monitorData.addressFamily]`: the object only has
keys `IPv4` and `IPv6`, so looking it up with the string `Any` yields
`undefined`, which is falsy. -/
def LinkLocalFlags.getMonitored (f : LinkLocalFlags) : MonitoredFamily → Bool
  | .IPv4 => f.IPv4
  | .IPv6 => f.IPv6
  | .Any => false

/-- Model of JS `s.startsWith(pre)`: the character sequence of `pre` is a
prefix of that of `s`. -/
def strStarts (s pre : String) : Bool :=
  pre.data.isPrefixOf s.data

/-- The source's `isLinkLocalAddress(address, addressFamily)`.  IPv4
link-local is detected by the prefix `169.254`; IPv6 link-local by the prefixes
`fe8`, `fe9`, `fea`, `feb`.  (The JS guard `address &&` only rejects the empty
string, for which every prefix test below is already false.) -/
def isLinkLocalAddress (address : String) (addressFamily : AddressFamily) : Bool :=
  match addressFamily with
  | .IPv4 => strStarts address "169.254"
  | .IPv6 =>
      strStarts address "fe8" || strStarts address "fe9" ||
      strStarts address "fea" || strStarts address "feb"

/-- The family filter in `getIP`:
`this.monitorData.addressFamily === ip.family || this.monitorData.addressFamily === 'Any'`. -/
def familyMatches (monitored : MonitoredFamily) (fam : AddressFamily) : Bool :=
  match monitored, fam with
  | .IPv4, .IPv4 => true
  | .IPv6, .IPv6 => true
  | .Any, _ => true
  | _, _ => false

/-- One iteration of the `for (const ip of networkInterfaces[...])` loop body
in `getIP`, acting on the accumulated `(result, hasLinkLocalAddress)`. -/
def getIPStep (monitored : MonitoredFamily) (allowLinkLocalAddress : Bool)
    (acc : AddressSet × LinkLocalFlags) (ip : IfEntry) : AddressSet × LinkLocalFlags :=
  if familyMatches monitored ip.family then
    if !isLinkLocalAddress ip.address ip.family then
      (acc.1.setFam ip.family ip.address, acc.2)
    else
      let flags := acc.2.setFam ip.family
      if allowLinkLocalAddress then
        (acc.1.setFam ip.family ip.address, flags)
      else
        (acc.1, flags)
  else
    acc

/-- The empty `result` object. -/
def AddressSet.empty : AddressSet := ⟨none, none⟩

/-- The initial `hasLinkLocalAddress` object. -/
def LinkLocalFlags.init : LinkLocalFlags := ⟨false, false⟩

/-- The source's `getIP(allowLinkLocalAddress)`: enumerate the interface's
addresses, build `result` and `hasLinkLocalAddress`, and return `null` for the
address when `result` ended up with no keys. -/
def getIP (snapshot : Snapshot) (networkInterface : String)
    (addressFamily : MonitoredFamily) (allowLinkLocalAddress : Bool) :
    Option AddressSet × LinkLocalFlags :=
  match lookupIface snapshot networkInterface with
  | none => (none, LinkLocalFlags.init)
  | some ips =>
      let r := ips.foldl (getIPStep addressFamily allowLinkLocalAddress)
        (AddressSet.empty, LinkLocalFlags.init)
      ((if r.1 = AddressSet.empty then none else some r.1), r.2)

/-- The mutable state of one `NetworkInterfaceMonitor` instance.  The native
subscription handle buffer is opaque, so `handle : Option Unit` records only
null vs non-null; `checkTimer : Bool` records whether a timer reference is
stored; `clientCallback : Bool` records whether a callback is registered. -/
structure MonitorState where
  networkInterface : String
  addressFamily : MonitoredFamily
  handle : Option Unit
  currentAddress : Option AddressSet
  checkTimer : Bool
  checkTimerCounter : Nat
  checkTimerInterval : Nat
  checkTimerMaxTries : Nat
  clientCallback : Bool
deriving DecidableEq, Repr

/-- A recorded client-callback invocation: the `(address, eventType)` pair. -/
abbrev CallbackEvent := Option AddressSet × Nat

/-- Outcome of the two native calls, modelling the return codes of
`NotifyIpInterfaceChange` and `CancelMibChangeNotify2` (`true` = returned 0). -/
structure NativeEnv where
  notifySuccess : Bool
  cancelSuccess : Bool
deriving DecidableEq, Repr

/-- The comparison loop of `detectIPChange`:
`for (const family in address) if (this.currentAddress[family] !== address[family]) ...`.
It iterates the keys of the NEW address object only; an absent key reads as
`undefined` (here `none`). -/
def familiesDiffer (current newAddr : AddressSet) : Bool :=
  (match newAddr.IPv4 with
   | some a => current.IPv4 != some a
   | none => false) ||
  (match newAddr.IPv6 with
   | some a => current.IPv6 != some a
   | none => false)

/-- The `if (this.checkTimer !== null)` block in the non-null-address branch of
`detectIPChange`: cancel the timer and reset the counter, only when a timer is
pending. -/
def cancelPendingTimer (s : MonitorState) : MonitorState :=
  if s.checkTimer then
    { s with checkTimer := false, checkTimerCounter := 0 }
  else
    s

/-- The source's `detectIPChange()`: resolve excluding link-local, classify,
arm or cancel the retry timer, update `currentAddress`, and invoke the client
callback when a non-`Initial` event was determined and a callback is
registered.  Returns the new state and the list of callback invocations. -/
def detectIPChange (snapshot : Snapshot) (s : MonitorState) :
    MonitorState × List CallbackEvent :=
  let r := getIP snapshot s.networkInterface s.addressFamily false
  let address := r.1
  let hasLinkLocalAddress := r.2
  let classified : Nat × MonitorState :=
    match address, s.currentAddress with
    | some _, none => (EventType.IPAssigned, cancelPendingTimer s)
    | some newAddr, some cur =>
        ((if familiesDiffer cur newAddr then EventType.IPChanged else EventType.Initial),
         cancelPendingTimer s)
    | none, some _ => (EventType.IPRemoved, s)
    | none, none =>
        (EventType.Initial,
         if hasLinkLocalAddress.getMonitored s.addressFamily && !s.checkTimer then
           { s with checkTimer := true }
         else
           s)
  let s2 := { classified.2 with currentAddress := address }
  let events :=
    if classified.1 != EventType.Initial && s2.clientCallback then
      [(s2.currentAddress, classified.1)]
    else
      []
  (s2, events)

/-- The source's `onCheckTimer()`: the timer reference is cleared (the
one-shot fired), the counter is post-incremented and compared against
`checkTimerMaxTries`; below the bound `detectIPChange` runs, otherwise the
counter is reset to 0 and nothing else happens. -/
def onCheckTimer (snapshot : Snapshot) (s : MonitorState) :
    MonitorState × List CallbackEvent :=
  let s0 := { s with checkTimer := false }
  if s0.checkTimerCounter < s0.checkTimerMaxTries then
    detectIPChange snapshot { s0 with checkTimerCounter := s0.checkTimerCounter + 1 }
  else
    ({ s0 with checkTimerCounter := 0 }, [])

/-- Result of `start()`: new state, boolean return value, callback invocations,
and the number of `NotifyIpInterfaceChange` calls made. -/
structure StartResult where
  state : MonitorState
  ret : Bool
  events : List CallbackEvent
  subscribeCalls : Nat
deriving DecidableEq, Repr

/-- The source's `start()`.  When a handle is already stored it returns true
at once.  Otherwise it resolves allowing link-local, stores `currentAddress`,
fires the `Initial` callback when one is registered, stores a freshly allocated
handle buffer (non-null REGARDLESS of the outcome of the native call), calls
`NotifyIpInterfaceChange` once and returns whether that call returned 0. -/
def start (env : NativeEnv) (snapshot : Snapshot) (s : MonitorState) : StartResult :=
  if s.handle.isSome then
    ⟨s, true, [], 0⟩
  else
    let r := getIP snapshot s.networkInterface s.addressFamily true
    let events := if s.clientCallback then [(r.1, EventType.Initial)] else []
    ⟨{ s with currentAddress := r.1, handle := some () }, env.notifySuccess, events, 1⟩

/-- Static `cancelNotification(monitorData)`: when a handle is stored and
`CancelMibChangeNotify2` succeeds the handle is cleared; the return value is
whether the handle is now null. -/
def cancelNotification (env : NativeEnv) (s : MonitorState) : MonitorState × Bool :=
  let s1 :=
    if s.handle.isSome && env.cancelSuccess then
      { s with handle := none }
    else
      s
  (s1, s1.handle.isNone)

/-- The source's `stop()`: clear the client callback, then cancel the
notification registration. -/
def stop (env : NativeEnv) (s : MonitorState) : MonitorState × Bool :=
  cancelNotification env { s with clientCallback := false }

/-- The two external triggers that can reach the monitor after construction: a
native change notification (whose payload `onNotifyIpInterfaceChange` ignores)
and a firing of the retry timer.  Each carries the snapshot it observes. -/
inductive TriggerKind
  | notification
  | timer
deriving DecidableEq, Repr

/-- Fire one trigger. -/
def fireTrigger (t : TriggerKind × Snapshot) (s : MonitorState) :
    MonitorState × List CallbackEvent :=
  match t.1 with
  | .notification => detectIPChange t.2 s
  | .timer => onCheckTimer t.2 s

/-- Fire a sequence of triggers, collecting all callback invocations. -/
def runTriggers : List (TriggerKind × Snapshot) → MonitorState →
    MonitorState × List CallbackEvent
  | [], s => (s, [])
  | t :: ts, s =>
      let r := fireTrigger t s
      let rest := runTriggers ts r.1
      (rest.1, r.2 ++ rest.2)

/-- Run consecutive timer firings while a timer is pending (fuel-bounded):
returns the final state, the number of firings, and the callback invocations.
This models the host event loop delivering each armed one-shot timer. -/
def timerRun (snapshot : Snapshot) : Nat → MonitorState →
    MonitorState × Nat × List CallbackEvent
  | 0, s => (s, 0, [])
  | fuel + 1, s =>
      if s.checkTimer then
        let r := onCheckTimer snapshot s
        let rest := timerRun snapshot fuel r.1
        (rest.1, rest.2.1 + 1, r.2 ++ rest.2.2)
      else
        (s, 0, [])

/-- Address read `address[family]` on a possibly-null address object. -/
def addrAt : Option AddressSet → AddressFamily → Option String
  | none, _ => none
  | some A, f => A.get f

/-- Whether one enumerated entry ends up written into `result` by the `getIP`
loop: its family passes the filter and it is either not link-local or
link-local addresses are allowed. -/
def included (mon : MonitoredFamily) (allow : Bool) (e : IfEntry) : Bool :=
  familyMatches mon e.family && (!isLinkLocalAddress e.address e.family || allow)

/-- Invariant of the `getIP` loop with `allowLinkLocalAddress = false`: the
accumulated `result` holds no link-local address. -/
def resultClean (A : AddressSet) : Prop :=
  ∀ f v, A.get f = some v → isLinkLocalAddress v f = false

-- Concrete fixtures used by counterexamples and witnesses.

def c1Prev : AddressSet := ⟨some "10.0.0.1", some "2001:db8::1"⟩

def c1Snap : Snapshot := [("eth0", [⟨"2001:db8::1", .IPv6⟩])]

def c1State : MonitorState := ⟨"eth0", .Any, some (), some c1Prev, false, 0, 500, 20, true⟩

def w1Snap : Snapshot := [("EthW1", [⟨"192.168.5.5", .IPv4⟩])]

def w1State : MonitorState := ⟨"EthW1", .IPv4, some (), none, false, 0, 500, 20, true⟩

def w2Snap : Snapshot := [("W2", [⟨"169.254.9.9", .IPv4⟩, ⟨"10.0.0.9", .IPv4⟩])]

def c3Snap : Snapshot := [("Ethernet", [⟨"10.1.2.3", .IPv4⟩])]

def c3State : MonitorState := ⟨"Ethernet", .IPv4, none, none, false, 0, 500, 20, true⟩

def c3EnvFail : NativeEnv := ⟨false, true⟩

def c3EnvOk : NativeEnv := ⟨true, true⟩

def c4Prev : AddressSet := ⟨some "172.16.0.4", some "fd00::4"⟩

def c4Snap : Snapshot := [("wlan0", [⟨"fd00::4", .IPv6⟩])]

def c4State : MonitorState := ⟨"wlan0", .Any, some (), some c4Prev, false, 0, 500, 20, true⟩

def w4Prev : AddressSet := ⟨some "192.0.2.7", some "2001:db8::77"⟩

def w4Snap : Snapshot := [("W4", [⟨"2001:db8::77", .IPv6⟩])]

def w4State : MonitorState := ⟨"W4", .Any, some (), some w4Prev, false, 0, 500, 20, true⟩

def w5Env : NativeEnv := ⟨true, true⟩

def w5Snap : Snapshot := [("W5", [⟨"10.5.5.5", .IPv4⟩])]

def w5Inert : MonitorState := ⟨"W5", .IPv4, none, none, false, 0, 500, 20, true⟩

def w5Started : MonitorState := ⟨"W5", .IPv4, some (), some ⟨some "10.5.5.5", none⟩, false, 0, 500, 20, true⟩

def c6Snap : Snapshot := [("eth1", [⟨"169.254.7.7", .IPv4⟩])]

def c6State : MonitorState := ⟨"eth1", .IPv4, some (), none, true, 0, 500, 1, true⟩

def w6Snap : Snapshot := [("W6", [⟨"169.254.3.3", .IPv4⟩])]

def w7Snap : Snapshot := [("W7", [⟨"198.51.100.7", .IPv4⟩])]

def w7State : MonitorState := ⟨"W7", .IPv4, some (), none, true, 3, 500, 20, true⟩

def w8Env : NativeEnv := ⟨true, true⟩

def w8State : MonitorState := ⟨"W8", .IPv4, some (), some ⟨some "10.8.8.8", none⟩, true, 2, 500, 20, true⟩

def w8Snap : Snapshot := [("W8", [⟨"10.8.8.9", .IPv4⟩])]

def w8Ts : List (TriggerKind × Snapshot) := [(.notification, w8Snap), (.timer, w8Snap), (.notification, [])]

def w9Snap : Snapshot := [("W9", [⟨"169.254.2.2", .IPv4⟩, ⟨"10.9.9.9", .IPv4⟩])]

def w9State : MonitorState := ⟨"W9", .IPv4, none, none, false, 0, 500, 20, true⟩

def w10Snap : Snapshot := [("W10", [⟨"10.0.0.1", .IPv4⟩, ⟨"10.0.0.2", .IPv4⟩, ⟨"2001:db8::a", .IPv6⟩])]

-- Helper lemmas about the embedded operations.

@[simp] theorem cancelPendingTimer_clientCallback (s : MonitorState) :
    (cancelPendingTimer s).clientCallback = s.clientCallback := by
  unfold cancelPendingTimer; split <;> rfl

@[simp] theorem cancelNotification_clientCallback (env : NativeEnv) (s : MonitorState) :
    ((cancelNotification env s).1).clientCallback = s.clientCallback := by
  unfold cancelNotification; split <;> rfl

@[simp] theorem detect_clientCallback (snapshot : Snapshot) (s : MonitorState) :
    ((detectIPChange snapshot s).1).clientCallback = s.clientCallback := by
  unfold detectIPChange
  rcases h1 : (getIP snapshot s.networkInterface s.addressFamily false).1 with _ | N <;>
    rcases h2 : s.currentAddress with _ | P <;>
      simp [h1, h2, cancelPendingTimer] <;> split <;> rfl

theorem detect_silent (snapshot : Snapshot) (s : MonitorState)
    (h : s.clientCallback = false) : (detectIPChange snapshot s).2 = [] := by
  unfold detectIPChange
  rcases h1 : (getIP snapshot s.networkInterface s.addressFamily false).1 with _ | N <;>
    rcases h2 : s.currentAddress with _ | P <;>
      simp [h1, h2, h, cancelPendingTimer] <;> split <;> simp [h]

@[simp] theorem onCheckTimer_clientCallback (snapshot : Snapshot) (s : MonitorState) :
    ((onCheckTimer snapshot s).1).clientCallback = s.clientCallback := by
  simp only [onCheckTimer]
  split
  · rw [detect_clientCallback]
  · rfl

theorem onCheckTimer_silent (snapshot : Snapshot) (s : MonitorState)
    (h : s.clientCallback = false) : (onCheckTimer snapshot s).2 = [] := by
  simp only [onCheckTimer]
  split
  · exact detect_silent _ _ h
  · rfl

theorem runTriggers_silent (ts : List (TriggerKind × Snapshot)) (s : MonitorState)
    (h : s.clientCallback = false) : (runTriggers ts s).2 = [] := by
  induction ts generalizing s with
  | nil => rfl
  | cons t ts ih =>
      unfold runTriggers fireTrigger
      cases t.1
      · have h1 : ((detectIPChange t.2 s).1).clientCallback = false := by simp [h]
        simp [detect_silent _ _ h, ih _ h1]
      · have h1 : ((onCheckTimer t.2 s).1).clientCallback = false := by simp [h]
        simp [onCheckTimer_silent _ _ h, ih _ h1]

theorem detect_linkLocalIdle (snapshot : Snapshot) (name : String)
    (fam : MonitoredFamily) (flags : LinkLocalFlags)
    (hres : getIP snapshot name fam false = (none, flags))
    (hll : flags.getMonitored fam = true)
    (ha : Option Unit) (c interval maxT : Nat) (cb : Bool) :
    detectIPChange snapshot ⟨name, fam, ha, none, false, c, interval, maxT, cb⟩ =
      (⟨name, fam, ha, none, true, c, interval, maxT, cb⟩, []) := by
  simp [detectIPChange, hres, hll, EventType.Initial]

theorem timerRun_not_armed (snapshot : Snapshot) (fuel : Nat) (s : MonitorState)
    (h : s.checkTimer = false) : timerRun snapshot fuel s = (s, 0, []) := by
  cases fuel <;> simp [timerRun, h]

theorem timerRun_succ_armed (snapshot : Snapshot) (fuel : Nat) (s : MonitorState)
    (h : s.checkTimer = true) :
    timerRun snapshot (fuel + 1) s =
      ((timerRun snapshot fuel (onCheckTimer snapshot s).1).1,
       (timerRun snapshot fuel (onCheckTimer snapshot s).1).2.1 + 1,
       (onCheckTimer snapshot s).2 ++
         (timerRun snapshot fuel (onCheckTimer snapshot s).1).2.2) := by
  simp [timerRun, h]

theorem onCheckTimer_retry (snapshot : Snapshot) (name : String)
    (fam : MonitoredFamily) (flags : LinkLocalFlags)
    (hres : getIP snapshot name fam false = (none, flags))
    (hll : flags.getMonitored fam = true)
    (ha : Option Unit) (c interval maxT : Nat) (cb : Bool) (hlt : c < maxT) :
    onCheckTimer snapshot ⟨name, fam, ha, none, true, c, interval, maxT, cb⟩ =
      (⟨name, fam, ha, none, true, c + 1, interval, maxT, cb⟩, []) := by
  simp only [onCheckTimer]
  rw [if_pos hlt]
  exact detect_linkLocalIdle snapshot name fam flags hres hll ha (c + 1) interval maxT cb

theorem onCheckTimer_giveup (snapshot : Snapshot) (name : String)
    (fam : MonitoredFamily)
    (ha : Option Unit) (c interval maxT : Nat) (cb : Bool) (hge : ¬ c < maxT) :
    onCheckTimer snapshot ⟨name, fam, ha, none, true, c, interval, maxT, cb⟩ =
      (⟨name, fam, ha, none, false, 0, interval, maxT, cb⟩, []) := by
  simp only [onCheckTimer]
  rw [if_neg hge]

theorem timerRun_linkLocal (snapshot : Snapshot) (name : String)
    (fam : MonitoredFamily) (flags : LinkLocalFlags)
    (hres : getIP snapshot name fam false = (none, flags))
    (hll : flags.getMonitored fam = true) :
    ∀ (n fuelExtra : Nat) (ha : Option Unit) (c interval maxT : Nat) (cb : Bool),
      c + n = maxT →
      timerRun snapshot (n + 1 + fuelExtra) ⟨name, fam, ha, none, true, c, interval, maxT, cb⟩ =
        (⟨name, fam, ha, none, false, 0, interval, maxT, cb⟩, n + 1, []) := by
  intro n
  induction n with
  | zero =>
      intro fuelExtra ha c interval maxT cb hc
      have hcm : c = maxT := by omega
      subst hcm
      have h1 : (0 : Nat) + 1 + fuelExtra = fuelExtra + 1 := by omega
      rw [h1]
      rw [timerRun_succ_armed snapshot fuelExtra _ rfl]
      rw [onCheckTimer_giveup snapshot name fam ha c interval c cb (by omega)]
      rw [timerRun_not_armed snapshot fuelExtra _ rfl]
      simp
  | succ n ih =>
      intro fuelExtra ha c interval maxT cb hc
      have h1 : n + 1 + 1 + fuelExtra = (n + 1 + fuelExtra) + 1 := by omega
      rw [h1]
      rw [timerRun_succ_armed snapshot (n + 1 + fuelExtra) _ rfl]
      rw [onCheckTimer_retry snapshot name fam flags hres hll ha c interval maxT cb (by omega)]
      rw [ih fuelExtra ha (c + 1) interval maxT cb (by omega)]
      simp

-- Helper lemmas about the getIP loop.

theorem addressSet_get_setFam (A : AddressSet) (f g : AddressFamily) (v : String) :
    (A.setFam f v).get g = if g = f then some v else A.get g := by
  cases f <;> cases g <;> simp [AddressSet.setFam, AddressSet.get]

theorem flags_get_setFam (F : LinkLocalFlags) (f g : AddressFamily) :
    (F.setFam f).get g = if g = f then true else F.get g := by
  cases f <;> cases g <;> simp [LinkLocalFlags.setFam, LinkLocalFlags.get]

theorem AddressSet.get_empty (f : AddressFamily) : AddressSet.empty.get f = none := by
  cases f <;> rfl

theorem isPrefixOf_append_self (l t : List Char) : l.isPrefixOf (l ++ t) = true := by
  induction l with
  | nil => simp [List.isPrefixOf]
  | cons a as ih => simp [List.isPrefixOf, ih]

theorem strStarts_append (p t : String) : strStarts (p ++ t) p = true := by
  unfold strStarts
  rw [String.data_append]
  exact isPrefixOf_append_self _ _

theorem getIPStep_clean (mon : MonitoredFamily) (acc : AddressSet × LinkLocalFlags)
    (e : IfEntry) (h : resultClean acc.1) :
    resultClean (getIPStep mon false acc e).1 := by
  unfold getIPStep
  by_cases hm : familyMatches mon e.family = true
  · rw [if_pos hm]
    by_cases hll : isLinkLocalAddress e.address e.family = true
    · rw [if_neg (by simp [hll])]
      simpa using h
    · rw [if_pos (by simp [Bool.not_eq_true] at hll; simp [hll])]
      intro f v hv
      rw [addressSet_get_setFam] at hv
      by_cases hf : f = e.family
      · rw [if_pos hf] at hv
        obtain rfl : e.address = v := Option.some.inj hv
        subst hf
        exact Bool.not_eq_true _ |>.mp hll
      · rw [if_neg hf] at hv
        exact h _ _ hv
  · rw [if_neg hm]
    exact h

theorem foldl_clean (mon : MonitoredFamily) (ips : List IfEntry)
    (acc : AddressSet × LinkLocalFlags) (h : resultClean acc.1) :
    resultClean ((ips.foldl (getIPStep mon false) acc).1) := by
  induction ips generalizing acc with
  | nil => exact h
  | cons e es ih => exact ih _ (getIPStep_clean mon acc e h)

theorem getIPStep_flags_mono (mon : MonitoredFamily) (allow : Bool)
    (acc : AddressSet × LinkLocalFlags) (e : IfEntry) (f : AddressFamily)
    (h : acc.2.get f = true) : ((getIPStep mon allow acc e).2).get f = true := by
  unfold getIPStep
  split
  · split
    · exact h
    · split <;> (rw [flags_get_setFam]; split <;> simp [h])
  · exact h

theorem foldl_flags_mono (mon : MonitoredFamily) (allow : Bool) (ips : List IfEntry)
    (acc : AddressSet × LinkLocalFlags) (f : AddressFamily)
    (h : acc.2.get f = true) :
    (((ips.foldl (getIPStep mon allow) acc)).2).get f = true := by
  induction ips generalizing acc with
  | nil => exact h
  | cons e es ih => exact ih _ (getIPStep_flags_mono mon allow acc e f h)

theorem getIPStep_flags_set (mon : MonitoredFamily) (allow : Bool)
    (acc : AddressSet × LinkLocalFlags) (e : IfEntry)
    (hm : familyMatches mon e.family = true)
    (hll : isLinkLocalAddress e.address e.family = true) :
    ((getIPStep mon allow acc e).2).get e.family = true := by
  unfold getIPStep
  rw [if_pos hm]
  rw [if_neg (by simp [hll])]
  split <;> (rw [flags_get_setFam]; simp)

theorem foldl_flags_of_mem (mon : MonitoredFamily) (allow : Bool) (ips : List IfEntry)
    (acc : AddressSet × LinkLocalFlags) (e : IfEntry) (hmem : e ∈ ips)
    (hm : familyMatches mon e.family = true)
    (hll : isLinkLocalAddress e.address e.family = true) :
    (((ips.foldl (getIPStep mon allow) acc)).2).get e.family = true := by
  induction ips generalizing acc with
  | nil => cases hmem
  | cons x xs ih =>
      rcases List.mem_cons.1 hmem with hx | hx
      · subst hx
        exact foldl_flags_mono mon allow xs _ _
          (getIPStep_flags_set mon allow acc e hm hll)
      · exact ih _ hx

theorem getIP_addr_cases (snapshot : Snapshot) (name : String)
    (mon : MonitoredFamily) (allow : Bool) :
    (getIP snapshot name mon allow).1 = none ∨
    ∃ ips, lookupIface snapshot name = some ips ∧
      (getIP snapshot name mon allow).1 =
        some ((ips.foldl (getIPStep mon allow) (AddressSet.empty, LinkLocalFlags.init)).1) := by
  cases hlook : lookupIface snapshot name with
  | none => left; simp [getIP, hlook]
  | some ips =>
      by_cases hemp :
          (ips.foldl (getIPStep mon allow) (AddressSet.empty, LinkLocalFlags.init)).1 =
            AddressSet.empty
      · left; simp [getIP, hlook, hemp]
      · right; exact ⟨ips, rfl, by simp [getIP, hlook, hemp]⟩

theorem getIP_clean (snapshot : Snapshot) (name : String) (mon : MonitoredFamily) :
    ∀ f v, addrAt (getIP snapshot name mon false).1 f = some v →
      isLinkLocalAddress v f = false := by
  intro f v hv
  rcases getIP_addr_cases snapshot name mon false with h | ⟨ips, _, h⟩
  · rw [h] at hv; cases hv
  · rw [h] at hv
    exact foldl_clean mon ips _
      (by intro g w hw; cases g <;> simp [AddressSet.empty, AddressSet.get] at hw) f v hv

theorem getIPStep_get_set (mon : MonitoredFamily) (allow : Bool)
    (acc : AddressSet × LinkLocalFlags) (x : IfEntry) (f : AddressFamily)
    (h : (included mon allow x && x.family == f) = true) :
    ((getIPStep mon allow acc x).1).get f = some x.address := by
  have hf : x.family = f := by
    simp at h
    exact h.2
  cases hm : familyMatches mon x.family <;>
    cases hll : isLinkLocalAddress x.address x.family <;> cases allow <;>
      simp_all [getIPStep, included, addressSet_get_setFam]

theorem getIPStep_get_untouched (mon : MonitoredFamily) (allow : Bool)
    (acc : AddressSet × LinkLocalFlags) (x : IfEntry) (f : AddressFamily)
    (h : (included mon allow x && x.family == f) = false) :
    ((getIPStep mon allow acc x).1).get f = acc.1.get f := by
  cases hm : familyMatches mon x.family <;>
    cases hll : isLinkLocalAddress x.address x.family <;>
      cases hf : x.family == f <;> cases allow <;>
        simp_all [getIPStep, included, addressSet_get_setFam] <;>
          (intro hc; exact absurd hc.symm hf)

theorem foldl_get_last (mon : MonitoredFamily) (allow : Bool) (f : AddressFamily)
    (ips : List IfEntry) (acc : AddressSet × LinkLocalFlags) :
    ((ips.foldl (getIPStep mon allow) acc).1).get f =
      (match ((ips.filter (fun e => included mon allow e && e.family == f)).map
          (fun e => e.address)).getLast? with
       | some v => some v
       | none => acc.1.get f) := by
  induction ips using List.reverseRecOn generalizing acc with
  | nil => simp
  | append_singleton xs x ih =>
      rw [List.foldl_append]
      simp only [List.foldl_cons, List.foldl_nil]
      cases hinc : (included mon allow x && x.family == f) with
      | true =>
          rw [getIPStep_get_set mon allow _ x f hinc]
          have hfilter :
              (xs ++ [x]).filter (fun e => included mon allow e && e.family == f) =
                xs.filter (fun e => included mon allow e && e.family == f) ++ [x] := by
            simp [List.filter_append, hinc]
          rw [hfilter, List.map_append, List.map_cons, List.map_nil,
            List.getLast?_concat]
      | false =>
          rw [getIPStep_get_untouched mon allow _ x f hinc]
          have hfilter :
              (xs ++ [x]).filter (fun e => included mon allow e && e.family == f) =
                xs.filter (fun e => included mon allow e && e.family == f) := by
            simp [List.filter_append, hinc]
          rw [hfilter, ih]

-- Claim theorems.

/-- C1 (amended): classification table of `detectIPChange` with a registered
callback.  Writing `P` for the stored `currentAddress` and `N` for the newly
resolved link-local-free address: `P = None, N = None` emits nothing;
`P = None, N ≠ None` emits `IPAssigned`; `P ≠ None, N = None` emits
`IPRemoved`; both non-`None` and some family present in `N` differing from `P`
(absent in `P`, or present with another address) emits `IPChanged`; both
non-`None` with every family of `N` unchanged emits nothing — even when `P`
holds a family absent from `N`. -/
theorem detectIPChange_event_table (snapshot : Snapshot) (s : MonitorState)
    (hcb : s.clientCallback = true) :
    ((getIP snapshot s.networkInterface s.addressFamily false).1 = none →
      s.currentAddress = none → (detectIPChange snapshot s).2 = []) ∧
    (∀ N, (getIP snapshot s.networkInterface s.addressFamily false).1 = some N →
      s.currentAddress = none →
      (detectIPChange snapshot s).2 = [(some N, EventType.IPAssigned)]) ∧
    (∀ P, (getIP snapshot s.networkInterface s.addressFamily false).1 = none →
      s.currentAddress = some P →
      (detectIPChange snapshot s).2 = [(none, EventType.IPRemoved)]) ∧
    (∀ N P, (getIP snapshot s.networkInterface s.addressFamily false).1 = some N →
      s.currentAddress = some P → familiesDiffer P N = true →
      (detectIPChange snapshot s).2 = [(some N, EventType.IPChanged)]) ∧
    (∀ N P, (getIP snapshot s.networkInterface s.addressFamily false).1 = some N →
      s.currentAddress = some P → familiesDiffer P N = false →
      (detectIPChange snapshot s).2 = []) := by
  refine ⟨?_, ?_, ?_, ?_, ?_⟩
  · intro h1 h2
    simp [detectIPChange, h1, h2, EventType.Initial]
  · intro N h1 h2
    simp [detectIPChange, h1, h2, hcb, EventType.Initial, EventType.IPAssigned]
  · intro P h1 h2
    simp [detectIPChange, h1, h2, hcb, EventType.Initial, EventType.IPRemoved]
  · intro N P h1 h2 h3
    simp [detectIPChange, h1, h2, h3, hcb, EventType.Initial, EventType.IPChanged]
  · intro N P h1 h2 h3
    simp [detectIPChange, h1, h2, h3, hcb, EventType.Initial]

/-- Witness for C1: on a fresh monitor for `EthW1`/IPv4 whose interface holds
`192.168.5.5`, `detectIPChange` emits exactly one `IPAssigned` callback. -/
theorem detectIPChange_event_table_witness :
    w1State.clientCallback = true ∧
    (detectIPChange w1Snap w1State).2 =
      [(some ⟨some "192.168.5.5", none⟩, EventType.IPAssigned)] :=
  ⟨rfl, (detectIPChange_event_table w1Snap w1State rfl).2.1
    ⟨some "192.168.5.5", none⟩ (by decide) rfl⟩

/-- Counterexample for C1 as stated: previous set `IPv4 10.0.0.1, IPv6
2001:db8::1`, new set only `IPv6 2001:db8::1` (family `Any`).  Both sets are
non-`None` and the IPv4 family differs (present before, absent now), yet
`detectIPChange` emits no event at all — not the `IPChanged` the table
requires. -/
theorem detectIPChange_event_table_cex :
    (getIP c1Snap "eth0" MonitoredFamily.Any false).1 = some ⟨none, some "2001:db8::1"⟩ ∧
    c1State.currentAddress = some c1Prev ∧
    c1State.clientCallback = true ∧
    c1Prev.IPv4 ≠ (⟨none, some "2001:db8::1"⟩ : AddressSet).IPv4 ∧
    (detectIPChange c1Snap c1State).2 = [] := by decide

/-- C4 (amended): with both the stored and the newly resolved set non-`None`,
a family present in the previous set but absent from the new set while every
family of the new set is unchanged produces NO event (the code only compares
the keys of the new set); in particular no removal event fires. -/
theorem detectIPChange_partial_loss_silent (snapshot : Snapshot) (s : MonitorState)
    (N P : AddressSet)
    (hres : (getIP snapshot s.networkInterface s.addressFamily false).1 = some N)
    (hcur : s.currentAddress = some P)
    (hsame : familiesDiffer P N = false)
    (hloss : ∃ f, (P.get f).isSome ∧ N.get f = none) :
    (detectIPChange snapshot s).2 = [] := by
  simp [detectIPChange, hres, hcur, hsame, EventType.Initial]

/-- Witness for C4: previous `IPv4 192.0.2.7, IPv6 2001:db8::77`, new set only
the unchanged IPv6 address: no callback fires. -/
theorem detectIPChange_partial_loss_silent_witness :
    (detectIPChange w4Snap w4State).2 = [] :=
  detectIPChange_partial_loss_silent w4Snap w4State ⟨none, some "2001:db8::77"⟩ w4Prev
    (by decide) rfl (by decide) ⟨AddressFamily.IPv4, by decide, rfl⟩

/-- Counterexample for C4 as stated: previous set `IPv4 172.16.0.4, IPv6
fd00::4`, new set only `IPv6 fd00::4` (family `Any`): IPv4 disappeared while
the IPv6 address remained, yet the emitted event list is empty — the claimed
`IPChanged` is not emitted. -/
theorem detectIPChange_partial_loss_cex :
    (getIP c4Snap "wlan0" MonitoredFamily.Any false).1 = some ⟨none, some "fd00::4"⟩ ∧
    c4State.currentAddress = some c4Prev ∧
    c4State.clientCallback = true ∧
    c4Prev.IPv4.isSome ∧
    (detectIPChange c4Snap c4State).2 = [] := by decide

/-- C7: when `detectIPChange` resolves a non-`None` address set while a retry
timer is pending, the timer is cancelled and the attempt counter is reset to
zero in the state it returns. -/
theorem detectIPChange_cancels_pending_timer (snapshot : Snapshot)
    (s : MonitorState) (N : AddressSet)
    (hres : (getIP snapshot s.networkInterface s.addressFamily false).1 = some N)
    (ht : s.checkTimer = true) :
    ((detectIPChange snapshot s).1).checkTimer = false ∧
    ((detectIPChange snapshot s).1).checkTimerCounter = 0 := by
  cases hcur : s.currentAddress <;>
    simp [detectIPChange, hres, hcur, cancelPendingTimer, ht]

/-- Witness for C7: a pending timer with counter 3 is cancelled and reset when
`198.51.100.7` resolves. -/
theorem detectIPChange_cancels_pending_timer_witness :
    ((detectIPChange w7Snap w7State).1).checkTimer = false ∧
    ((detectIPChange w7Snap w7State).1).checkTimerCounter = 0 :=
  detectIPChange_cancels_pending_timer w7Snap w7State ⟨some "198.51.100.7", none⟩
    (by decide) rfl

/-- C9: `start()` on an inert monitor with a registered callback emits exactly
one `Initial` event before returning, whose address is the link-local-allowing
resolution, and stores that address as `currentAddress`. -/
theorem start_initial_event (env : NativeEnv) (snapshot : Snapshot) (s : MonitorState)
    (hh : s.handle = none) (hcb : s.clientCallback = true) :
    (start env snapshot s).events =
      [((getIP snapshot s.networkInterface s.addressFamily true).1, EventType.Initial)] ∧
    ((start env snapshot s).state).currentAddress =
      (getIP snapshot s.networkInterface s.addressFamily true).1 := by
  simp [start, hh, hcb]

/-- Witness for C9: starting the `W9`/IPv4 monitor (interface holding a
link-local and a routable address) fires one `Initial` callback with the
link-local-inclusive resolution. -/
theorem start_initial_event_witness :
    (start c3EnvOk w9Snap w9State).events =
      [((getIP w9Snap w9State.networkInterface w9State.addressFamily true).1,
        EventType.Initial)] ∧
    ((start c3EnvOk w9Snap w9State).state).currentAddress =
      (getIP w9Snap w9State.networkInterface w9State.addressFamily true).1 :=
  start_initial_event c3EnvOk w9Snap w9State rfl rfl

/-- C3 (documents the code bug): when the native subscribe call fails,
`start()` does return `false`, but the handle buffer allocated before the call
remains stored (non-null).  A subsequent `start()` therefore sees the handle,
returns `true` as a no-op, fires no callback and makes no fresh subscription
attempt — contradicting the claim that the state stays effectively inert and
that a retry performs a fresh subscription. -/
theorem start_failure_retry_noop :
    (start c3EnvFail c3Snap c3State).ret = false ∧
    (start c3EnvFail c3Snap c3State).state.handle ≠ none ∧
    start c3EnvOk c3Snap (start c3EnvFail c3Snap c3State).state =
      ⟨(start c3EnvFail c3Snap c3State).state, true, [], 0⟩ := by decide

/-- C5: `start()` twice in a row from the inert state (with the native call
succeeding) returns `true` both times and performs exactly one native
subscription, the second call being a complete no-op; `stop()` twice in a row
(with native cancellation succeeding) returns `true` both times, and `stop()`
on a handle-free monitor is a no-op returning success under any native
outcome. -/
theorem start_stop_idempotent (env env2 env3 : NativeEnv) (snap1 snap2 : Snapshot)
    (s t u : MonitorState)
    (hh : s.handle = none) (hn : env.notifySuccess = true)
    (hc : env2.cancelSuccess = true) (hu : u.handle = none) :
    (start env snap1 s).ret = true ∧
    (start env snap1 s).subscribeCalls = 1 ∧
    (start env2 snap2 (start env snap1 s).state).ret = true ∧
    (start env2 snap2 (start env snap1 s).state).subscribeCalls = 0 ∧
    (start env2 snap2 (start env snap1 s).state).state = (start env snap1 s).state ∧
    (start env2 snap2 (start env snap1 s).state).events = [] ∧
    (stop env2 t).2 = true ∧
    (stop env3 (stop env2 t).1).2 = true ∧
    (stop env3 u).2 = true ∧ ((stop env3 u).1).handle = none := by
  refine ⟨?_, ?_, ?_, ?_, ?_, ?_, ?_, ?_, ?_, ?_⟩
  · simp [start, hh, hn]
  · simp [start, hh]
  · simp [start, hh]
  · simp [start, hh]
  · simp [start, hh]
  · simp [start, hh]
  · cases ht : t.handle <;> simp [stop, cancelNotification, hc, ht]
  · cases ht : t.handle <;> simp [stop, cancelNotification, hc, ht]
  · simp [stop, cancelNotification, hu]
  · simp [stop, cancelNotification, hu]

/-- Witness for C5: concrete double start on `W5` and double stop on a started
monitor, all returning success with a single subscription. -/
theorem start_stop_idempotent_witness :
    (start w5Env w5Snap w5Inert).ret = true ∧
    (start w5Env w5Snap (start w5Env w5Snap w5Inert).state).ret = true ∧
    (start w5Env w5Snap w5Inert).subscribeCalls = 1 ∧
    (start w5Env w5Snap (start w5Env w5Snap w5Inert).state).subscribeCalls = 0 ∧
    (stop w5Env w5Started).2 = true ∧
    (stop w5Env (stop w5Env w5Started).1).2 = true := by
  have h := start_stop_idempotent w5Env w5Env w5Env w5Snap w5Snap
    w5Inert w5Started w5Inert rfl rfl rfl rfl
  exact ⟨h.1, h.2.2.1, h.2.1, h.2.2.2.1, h.2.2.2.2.2.2.1, h.2.2.2.2.2.2.2.1⟩

/-- C8: after `stop()` returns `true` the client callback reference is cleared,
and any subsequent sequence of native notifications or timer firings (each
observing an arbitrary snapshot) produces no callback invocation. -/
theorem post_stop_silence (env : NativeEnv) (s : MonitorState)
    (ts : List (TriggerKind × Snapshot))
    (hstop : (stop env s).2 = true) :
    ((stop env s).1).clientCallback = false ∧
    (runTriggers ts (stop env s).1).2 = [] := by
  have hcb : ((stop env s).1).clientCallback = false := by
    unfold stop; rw [cancelNotification_clientCallback]
  exact ⟨hcb, runTriggers_silent _ _ hcb⟩

/-- Witness for C8: stopping the running `W8` monitor (with a pending timer)
and then delivering a notification, a timer firing, and another notification
yields no callback. -/
theorem post_stop_silence_witness :
    ((stop w8Env w8State).1).clientCallback = false ∧
    (runTriggers w8Ts (stop w8Env w8State).1).2 = [] :=
  post_stop_silence w8Env w8State w8Ts (by decide)

/-- C2: resolving with `allowLinkLocalAddress = false` yields a result set
containing no link-local address: no entry of the set satisfies the link-local
classifier, the IPv4 slot never holds a string extending `169.254` (the
`169.254.0.0/16` dotted-quad forms), the IPv6 slot never holds a string
extending `fe8`, `fe9`, `fea` or `feb` (the `fe80::/10` textual forms); and
the returned flag of a family is `true` whenever the interface holds a
link-local address of that family passing the family filter, excluded or not. -/
theorem getIP_excludes_linkLocal (snapshot : Snapshot) (name : String)
    (mon : MonitoredFamily) :
    (∀ f v, addrAt (getIP snapshot name mon false).1 f = some v →
        isLinkLocalAddress v f = false) ∧
    (∀ t, addrAt (getIP snapshot name mon false).1 AddressFamily.IPv4 ≠
        some ("169.254" ++ t)) ∧
    (∀ t, addrAt (getIP snapshot name mon false).1 AddressFamily.IPv6 ≠
        some ("fe8" ++ t)) ∧
    (∀ t, addrAt (getIP snapshot name mon false).1 AddressFamily.IPv6 ≠
        some ("fe9" ++ t)) ∧
    (∀ t, addrAt (getIP snapshot name mon false).1 AddressFamily.IPv6 ≠
        some ("fea" ++ t)) ∧
    (∀ t, addrAt (getIP snapshot name mon false).1 AddressFamily.IPv6 ≠
        some ("feb" ++ t)) ∧
    (∀ entries e, lookupIface snapshot name = some entries → e ∈ entries →
        familyMatches mon e.family = true →
        isLinkLocalAddress e.address e.family = true →
        ((getIP snapshot name mon false).2).get e.family = true) := by
  refine ⟨getIP_clean snapshot name mon, ?_, ?_, ?_, ?_, ?_, ?_⟩
  · intro t hv
    have := getIP_clean snapshot name mon _ _ hv
    simp [isLinkLocalAddress, strStarts_append] at this
  · intro t hv
    have := getIP_clean snapshot name mon _ _ hv
    simp [isLinkLocalAddress, strStarts_append] at this
  · intro t hv
    have := getIP_clean snapshot name mon _ _ hv
    simp [isLinkLocalAddress, strStarts_append] at this
  · intro t hv
    have := getIP_clean snapshot name mon _ _ hv
    simp [isLinkLocalAddress, strStarts_append] at this
  · intro t hv
    have := getIP_clean snapshot name mon _ _ hv
    simp [isLinkLocalAddress, strStarts_append] at this
  · intro entries e hlook hmem hm hll
    unfold getIP
    rw [hlook]
    exact foldl_flags_of_mem mon false entries _ e hmem hm hll

/-- Witness for C2: on `W2` (link-local `169.254.9.9` plus routable
`10.0.0.9`), the link-local string is rejected from the set while the IPv4
flag reports it. -/
theorem getIP_excludes_linkLocal_witness :
    addrAt (getIP w2Snap "W2" MonitoredFamily.IPv4 false).1 AddressFamily.IPv4 ≠
      some ("169.254" ++ ".9.9") ∧
    ((getIP w2Snap "W2" MonitoredFamily.IPv4 false).2).get AddressFamily.IPv4 = true :=
  ⟨(getIP_excludes_linkLocal w2Snap "W2" MonitoredFamily.IPv4).2.1 ".9.9",
   (getIP_excludes_linkLocal w2Snap "W2" MonitoredFamily.IPv4).2.2.2.2.2.2
     [⟨"169.254.9.9", AddressFamily.IPv4⟩, ⟨"10.0.0.9", AddressFamily.IPv4⟩]
     ⟨"169.254.9.9", AddressFamily.IPv4⟩ rfl (by decide) (by decide) (by decide)⟩

/-- C10: `getIP` maps each family to at most one address; the slot of family
`f` holds exactly the last enumerated entry of family `f` that the loop
includes (later entries overwrite earlier ones), and an unknown interface name
yields a `None` address set with both link-local flags `false`. -/
theorem getIP_last_address_wins (snapshot : Snapshot) (name : String)
    (mon : MonitoredFamily) (allow : Bool) (f : AddressFamily) :
    (lookupIface snapshot name = none →
      getIP snapshot name mon allow = (none, ⟨false, false⟩)) ∧
    (∀ entries, lookupIface snapshot name = some entries →
      addrAt (getIP snapshot name mon allow).1 f =
        ((entries.filter (fun e => included mon allow e && e.family == f)).map
          (fun e => e.address)).getLast?) := by
  constructor
  · intro h
    simp [getIP, h, LinkLocalFlags.init]
  · intro entries hlook
    have hfold := foldl_get_last mon allow f entries (AddressSet.empty, LinkLocalFlags.init)
    by_cases hemp :
        (entries.foldl (getIPStep mon allow) (AddressSet.empty, LinkLocalFlags.init)).1 =
          AddressSet.empty
    · have haddr : (getIP snapshot name mon allow).1 = none := by
        simp [getIP, hlook, hemp]
      rw [haddr]
      rw [hemp] at hfold
      cases hlast : ((entries.filter (fun e => included mon allow e && e.family == f)).map
          (fun e => e.address)).getLast? with
      | none => simp [addrAt]
      | some v =>
          rw [hlast] at hfold
          rw [AddressSet.get_empty] at hfold
          cases hfold
    · have haddr : (getIP snapshot name mon allow).1 =
          some ((entries.foldl (getIPStep mon allow)
            (AddressSet.empty, LinkLocalFlags.init)).1) := by
        simp [getIP, hlook, hemp]
      rw [haddr]
      simp only [addrAt]
      rw [hfold]
      cases hlast : ((entries.filter (fun e => included mon allow e && e.family == f)).map
          (fun e => e.address)).getLast? with
      | none => simp [AddressSet.get_empty]
      | some v => simp

/-- Witness for C10: on `W10`, which enumerates `10.0.0.1` then `10.0.0.2` for
IPv4, the IPv4 slot equals the last included address, and an unknown name
resolves to `None` with clear flags. -/
theorem getIP_last_address_wins_witness :
    addrAt (getIP w10Snap "W10" MonitoredFamily.Any false).1 AddressFamily.IPv4 =
      (([⟨"10.0.0.1", AddressFamily.IPv4⟩, ⟨"10.0.0.2", AddressFamily.IPv4⟩,
        ⟨"2001:db8::a", AddressFamily.IPv6⟩].filter
          (fun e => included MonitoredFamily.Any false e && e.family == AddressFamily.IPv4)).map
        (fun e => e.address)).getLast? ∧
    getIP w10Snap "missing" MonitoredFamily.Any false = (none, ⟨false, false⟩) :=
  ⟨(getIP_last_address_wins w10Snap "W10" MonitoredFamily.Any false AddressFamily.IPv4).2
     [⟨"10.0.0.1", AddressFamily.IPv4⟩, ⟨"10.0.0.2", AddressFamily.IPv4⟩,
      ⟨"2001:db8::a", AddressFamily.IPv6⟩] rfl,
   (getIP_last_address_wins w10Snap "missing" MonitoredFamily.Any false AddressFamily.IPv4).1 rfl⟩

/-- C6 (amended): if every resolution yields no address with the link-local
flag set for the monitored family, a retry cycle started with the timer armed
and the counter at zero fires the timer exactly `checkTimerMaxTries + 1`
times: the first `checkTimerMaxTries` firings re-check and re-arm, the final
firing silently gives up — counter reset to zero, timer not re-armed, no
callback — and no further firing occurs until a native notification arms the
timer again. -/
theorem retry_timer_bound (snapshot : Snapshot) (name : String)
    (fam : MonitoredFamily) (flags : LinkLocalFlags) (ha : Option Unit)
    (interval maxT : Nat) (cb : Bool) (fuelExtra : Nat)
    (hres : getIP snapshot name fam false = (none, flags))
    (hll : flags.getMonitored fam = true) :
    timerRun snapshot (maxT + 1 + fuelExtra)
        ⟨name, fam, ha, none, true, 0, interval, maxT, cb⟩ =
      (⟨name, fam, ha, none, false, 0, interval, maxT, cb⟩, maxT + 1, []) ∧
    ∀ k, timerRun snapshot k ⟨name, fam, ha, none, false, 0, interval, maxT, cb⟩ =
      (⟨name, fam, ha, none, false, 0, interval, maxT, cb⟩, 0, []) :=
  ⟨timerRun_linkLocal snapshot name fam flags hres hll maxT fuelExtra ha 0 interval
     maxT cb (by omega),
   fun k => timerRun_not_armed snapshot k _ rfl⟩

/-- Witness for C6: with `maxTries = 4` on `W6` (only `169.254.3.3` bound),
the armed timer fires exactly 5 times, ends disarmed with counter zero, and
emits nothing. -/
theorem retry_timer_bound_witness :
    timerRun w6Snap (4 + 1 + 2)
        ⟨"W6", MonitoredFamily.IPv4, some (), none, true, 0, 500, 4, true⟩ =
      (⟨"W6", MonitoredFamily.IPv4, some (), none, false, 0, 500, 4, true⟩, 4 + 1, []) ∧
    ∀ k, timerRun w6Snap k
        ⟨"W6", MonitoredFamily.IPv4, some (), none, false, 0, 500, 4, true⟩ =
      (⟨"W6", MonitoredFamily.IPv4, some (), none, false, 0, 500, 4, true⟩, 0, []) :=
  retry_timer_bound w6Snap "W6" MonitoredFamily.IPv4 ⟨true, false⟩ (some ())
    500 4 true 2 (by decide) rfl

/-- Counterexample for C6 as stated: with `checkTimerMaxTries = 1` and a
link-local-only interface, the armed timer fires 2 times before going quiet
(the final firing is the silent give-up), so it does not fire at most
`maxRetries` times. -/
theorem retry_timer_bound_cex :
    c6State.checkTimerMaxTries = 1 ∧
    (timerRun c6Snap 5 c6State).2.1 = 2 ∧
    ((timerRun c6Snap 5 c6State).1).checkTimer = false ∧
    ((timerRun c6Snap 5 c6State).1).checkTimerCounter = 0 ∧
    (timerRun c6Snap 5 c6State).2.2 = [] ∧
    ¬ (timerRun c6Snap 5 c6State).2.1 ≤ c6State.checkTimerMaxTries := by decide

end NIM
